import Mathlib

/-!
Verification of the Dekr User Deck Manager against its specification.

The development shallowly embeds the tier/limit/aggregate core of the
repository:
* the static tier entitlement table `TIER_LIMITS` (shared/schema.ts and the
  Python DeckManager carry the same numeric limits),
* the in-memory aggregate store `MemStorage` (server/storage.ts), modelled as
  explicit state passing over a `Storage` record,
* the Express route handlers of `registerRoutes` (server/routes.ts), modelled
  as pure functions from a request and a `Storage` to a response and a new
  `Storage`,
* the Python `DeckManager` operations `apply_strategy_to_stock` and
  `get_deck_analytics`,
* the `MarketDataService` quote gateway, with upstream fetches modelled as
  `Option`-valued oracles (a `none` oracle is an upstream failure).

Timestamps (`new Date()` / `datetime.now()`) are modelled as a `Nat` clock
passed explicitly; prices and returns are modelled as rationals.
-/

namespace Dekr

/-- Entitlement profile of one subscription tier (shared/schema.ts
`TIER_LIMITS` entry).  The unlimited sentinel is the literal `-1`, exactly as
in the source, hence the numeric fields are integers. -/
structure TierLimit where
  maxDecks : Int
  maxStocksPerDeck : Int
  maxStrategiesPerStock : Int
  features : List String
deriving Repr, DecidableEq

/-- The static tier table (shared/schema.ts `TIER_LIMITS`, keyed by the
`DataTier` enum values 1..7).  A tier value outside the enumeration has no
entry: the TypeScript lookup `TIER_LIMITS[user.tier as DataTier]` yields
`undefined` there, which we model as `none`. -/
def TIER_LIMITS : Nat → Option TierLimit
  | 1 => some ⟨1, 3, 1, ["basic_tracking", "simple_notes"]⟩
  | 2 => some ⟨3, 15, 2, ["basic_tracking", "simple_notes", "price_targets", "basic_analytics"]⟩
  | 3 => some ⟨5, 25, 3, ["basic_tracking", "simple_notes", "price_targets", "basic_analytics", "sector_analysis"]⟩
  | 4 => some ⟨10, 50, 5, ["all_basic", "advanced_analytics", "performance_tracking", "custom_tags"]⟩
  | 5 => some ⟨20, 100, 10, ["all_basic", "advanced_analytics", "performance_tracking", "custom_tags", "institutional_data", "dark_pool_signals"]⟩
  | 6 => some ⟨50, 250, 25, ["all_features", "api_access", "custom_integrations", "advanced_automation"]⟩
  | 7 => some ⟨-1, -1, -1, ["all_features", "white_label", "priority_support", "custom_development"]⟩
  | _ => none

/-- A user row (shared/schema.ts `users`). -/
structure User where
  id : Nat
  username : String
  password : String
  email : String
  tier : Nat
  createdAt : Nat
  updatedAt : Nat
deriving Repr, DecidableEq

/-- A deck row (shared/schema.ts `decks`).  The opaque `settings` jsonb blob
is modelled as an association list of string pairs. -/
structure Deck where
  id : Nat
  userId : Nat
  name : String
  description : Option String
  type : String
  isPublic : Bool
  settings : List (String × String)
  createdAt : Nat
  updatedAt : Nat
deriving Repr, DecidableEq

/-- A stock row (shared/schema.ts `stocks`).  The `performanceData` jsonb
blob is modelled as an association list of string pairs; `tags` and
`appliedStrategies` are the jsonb string arrays of the source. -/
structure Stock where
  id : Nat
  deckId : Nat
  symbol : String
  notes : Option String
  targetPrice : Option ℚ
  stopLoss : Option ℚ
  positionSize : Option ℚ
  status : String
  tags : List String
  appliedStrategies : List String
  performanceData : List (String × String)
  addedAt : Nat
  lastUpdated : Nat
deriving Repr, DecidableEq

/-- The body of a `POST /api/decks` request after the route has attached
`userId` (the fields `insertDeckSchema` reads from `req.body`).  `name` is
`Option` because the zod schema rejects a body in which the field is absent;
note that it does not reject the empty string. -/
structure DeckBody where
  name : Option String := none
  description : Option String := none
  type : Option String := none
  isPublic : Option Bool := none
  settings : Option (List (String × String)) := none
deriving Repr, DecidableEq

/-- The body of a `POST /api/decks/:id/stocks` request (the fields
`insertStockSchema` reads from `req.body`); the route itself supplies
`deckId`. -/
structure StockBody where
  symbol : String
  notes : Option String := none
  targetPrice : Option ℚ := none
  stopLoss : Option ℚ := none
  positionSize : Option ℚ := none
  status : Option String := none
  tags : Option (List String) := none
  appliedStrategies : Option (List String) := none
  performanceData : Option (List (String × String)) := none
deriving Repr, DecidableEq

/-- A partial update for a deck, as consumed by `MemStorage.updateDeck`
(`{ ...deck, ...updates, updatedAt: new Date() }`): a field is overridden
exactly when it is present in the patch.  `updatedAt` is always overwritten
after the spread, so it carries no patch field. -/
structure DeckPatch where
  id : Option Nat := none
  userId : Option Nat := none
  name : Option String := none
  description : Option (Option String) := none
  type : Option String := none
  isPublic : Option Bool := none
  settings : Option (List (String × String)) := none
  createdAt : Option Nat := none
deriving Repr, DecidableEq

/-- A partial update for a stock, as consumed by `MemStorage.updateStock`
(`{ ...stock, ...updates, lastUpdated: new Date() }`).  The route passes
`req.body` through unfiltered, so every column of the row — including `id`,
`deckId`, `symbol`, `appliedStrategies` and `addedAt` — may appear in the
patch.  `lastUpdated` is always overwritten after the spread, so it carries
no patch field. -/
structure StockPatch where
  id : Option Nat := none
  deckId : Option Nat := none
  symbol : Option String := none
  notes : Option (Option String) := none
  targetPrice : Option (Option ℚ) := none
  stopLoss : Option (Option ℚ) := none
  positionSize : Option (Option ℚ) := none
  status : Option String := none
  tags : Option (List String) := none
  appliedStrategies : Option (List String) := none
  performanceData : Option (List (String × String)) := none
  addedAt : Option Nat := none
deriving Repr, DecidableEq

/-- The mutable state of `MemStorage` (server/storage.ts): the id-keyed maps
are modelled as lists (ids are assigned from the strictly increasing
counters, so keys are unique in every reachable state), together with the
fresh-id counters.  Users, notifications and strategies are untouched by the
operations under verification and are omitted. -/
structure Storage where
  decks : List Deck
  stocks : List Stock
  currentDeckId : Nat
  currentStockId : Nat
deriving Repr, DecidableEq

/-- `MemStorage.getDeck`. -/
def getDeck (st : Storage) (id : Nat) : Option Deck :=
  st.decks.find? (fun d => d.id == id)

/-- `MemStorage.getUserDecks`. -/
def getUserDecks (st : Storage) (userId : Nat) : List Deck :=
  st.decks.filter (fun d => d.userId == userId)

/-- `MemStorage.getDeckStocks`. -/
def getDeckStocks (st : Storage) (deckId : Nat) : List Stock :=
  st.stocks.filter (fun s => s.deckId == deckId)

/-- `MemStorage.getStock`. -/
def getStock (st : Storage) (id : Nat) : Option Stock :=
  st.stocks.find? (fun s => s.id == id)

/-- `MemStorage.createDeck`: assigns the next deck id, fills the defaulted
columns, timestamps `createdAt` and `updatedAt` with the current time and
stores the row. -/
def createDeckStorage (st : Storage) (userId : Nat) (body : DeckBody) (name : String)
    (now : Nat) : Deck × Storage :=
  let deck : Deck :=
    { id := st.currentDeckId
      userId := userId
      name := name
      description := body.description
      type := (body.type).getD "watchlist"
      isPublic := (body.isPublic).getD false
      settings := (body.settings).getD []
      createdAt := now
      updatedAt := now }
  (deck, { st with decks := st.decks ++ [deck], currentDeckId := st.currentDeckId + 1 })

/-- `MemStorage.createStock`: assigns the next stock id, fills the defaulted
columns and stores the row. -/
def createStockStorage (st : Storage) (deckId : Nat) (body : StockBody)
    (now : Nat) : Stock × Storage :=
  let stock : Stock :=
    { id := st.currentStockId
      deckId := deckId
      symbol := body.symbol
      notes := body.notes
      targetPrice := body.targetPrice
      stopLoss := body.stopLoss
      positionSize := body.positionSize
      status := (body.status).getD "watching"
      tags := (body.tags).getD []
      appliedStrategies := (body.appliedStrategies).getD []
      performanceData := (body.performanceData).getD []
      addedAt := now
      lastUpdated := now }
  (stock, { st with stocks := st.stocks ++ [stock], currentStockId := st.currentStockId + 1 })

/-- The object spread `{ ...deck, ...updates, updatedAt: new Date() }` of
`MemStorage.updateDeck`. -/
def mergeDeck (d : Deck) (p : DeckPatch) (now : Nat) : Deck :=
  { id := (p.id).getD d.id
    userId := (p.userId).getD d.userId
    name := (p.name).getD d.name
    description := (p.description).getD d.description
    type := (p.type).getD d.type
    isPublic := (p.isPublic).getD d.isPublic
    settings := (p.settings).getD d.settings
    createdAt := (p.createdAt).getD d.createdAt
    updatedAt := now }

/-- The object spread `{ ...stock, ...updates, lastUpdated: new Date() }` of
`MemStorage.updateStock`: a field present in the patch overrides the stored
value, every other field is kept, and `lastUpdated` is set to the current
time unconditionally (it appears after the spread of the patch). -/
def mergeStock (s : Stock) (p : StockPatch) (now : Nat) : Stock :=
  { id := (p.id).getD s.id
    deckId := (p.deckId).getD s.deckId
    symbol := (p.symbol).getD s.symbol
    notes := (p.notes).getD s.notes
    targetPrice := (p.targetPrice).getD s.targetPrice
    stopLoss := (p.stopLoss).getD s.stopLoss
    positionSize := (p.positionSize).getD s.positionSize
    status := (p.status).getD s.status
    tags := (p.tags).getD s.tags
    appliedStrategies := (p.appliedStrategies).getD s.appliedStrategies
    performanceData := (p.performanceData).getD s.performanceData
    addedAt := (p.addedAt).getD s.addedAt
    lastUpdated := now }

/-- `MemStorage.updateStock`: merge the patch into the stored row (if any)
and store the result under the original key. -/
def updateStockStorage (st : Storage) (id : Nat) (p : StockPatch)
    (now : Nat) : Option Stock × Storage :=
  match getStock st id with
  | none => (none, st)
  | some stock =>
    let updated := mergeStock stock p now
    (some updated,
      { st with stocks := st.stocks.map (fun s => if s.id == id then updated else s) })

/-- `MemStorage.updateDeck`. -/
def updateDeckStorage (st : Storage) (id : Nat) (p : DeckPatch)
    (now : Nat) : Option Deck × Storage :=
  match getDeck st id with
  | none => (none, st)
  | some deck =>
    let updated := mergeDeck deck p now
    (some updated,
      { st with decks := st.decks.map (fun d => if d.id == id then updated else d) })

/-- `MemStorage.deleteStock`. -/
def deleteStockStorage (st : Storage) (id : Nat) : Storage :=
  { st with stocks := st.stocks.filter (fun s => s.id != id) }

/-- `MemStorage.deleteDeck`: first collects the deck's child stocks with
`getDeckStocks`, deletes each of them by its own id, then deletes the deck
row itself. -/
def deleteDeckStorage (st : Storage) (id : Nat) : Storage :=
  let deckStocks := getDeckStocks st id
  let remaining := deckStocks.foldl (fun acc s => acc.filter (fun s2 => s2.id != s.id)) st.stocks
  { st with stocks := remaining, decks := st.decks.filter (fun d => d.id != id) }

/-- An HTTP route outcome: either the JSON payload of a 200 response, or an
error status with the exact error string the handler sends.  A thrown
TypeScript exception that reaches the handler's catch block surfaces as
`err 500 "Internal server error"`. -/
inductive RouteResult (α : Type) where
  | ok (payload : α)
  | err (status : Nat) (msg : String)
deriving Repr, DecidableEq

/-- Route `POST /api/decks` (registerRoutes).  The handler resolves
`TIER_LIMITS[user.tier]` before anything else touches it; when the tier is
outside the enumeration the lookup yields `undefined` and the subsequent
`.maxDecks` access throws, which the catch block turns into a generic 500.
Otherwise it rejects when the user's deck count has reached a finite
`maxDecks`, then zod-parses the body (which only requires `name` to be
present — the empty string passes), and finally creates the deck. -/
def createDeckRoute (st : Storage) (user : User) (body : DeckBody)
    (now : Nat) : RouteResult Deck × Storage :=
  match TIER_LIMITS user.tier with
  | none => (.err 500 "Internal server error", st)
  | some tierLimits =>
    let existingDecks := getUserDecks st user.id
    if tierLimits.maxDecks ≠ -1 ∧ (existingDecks.length : Int) ≥ tierLimits.maxDecks then
      (.err 400 "Deck limit reached for your tier", st)
    else
      match body.name with
      | none => (.err 400 "Invalid deck data", st)
      | some name =>
        let created := createDeckStorage st user.id body name now
        (.ok created.1, created.2)

/-- Route `PUT /api/decks/:id` (registerRoutes): a deck that is absent, or
owned by a different user, yields the same 404 before any mutation. -/
def updateDeckRoute (st : Storage) (user : User) (deckId : Nat) (p : DeckPatch)
    (now : Nat) : RouteResult Deck × Storage :=
  match getDeck st deckId with
  | none => (.err 404 "Deck not found", st)
  | some deck =>
    if deck.userId ≠ user.id then (.err 404 "Deck not found", st)
    else
      let updated := updateDeckStorage st deckId p now
      match updated.1 with
      | some d => (.ok d, updated.2)
      | none => (.err 500 "Internal server error", updated.2)

/-- Route `DELETE /api/decks/:id` (registerRoutes): the same guard as
`updateDeckRoute`, then the cascading `MemStorage.deleteDeck`.  The success
payload `{ success: true }` is modelled as `true`. -/
def deleteDeckRoute (st : Storage) (user : User)
    (deckId : Nat) : RouteResult Bool × Storage :=
  match getDeck st deckId with
  | none => (.err 404 "Deck not found", st)
  | some deck =>
    if deck.userId ≠ user.id then (.err 404 "Deck not found", st)
    else (.ok true, deleteDeckStorage st deckId)

/-- Route `GET /api/decks/:id/stocks` (registerRoutes), without the optional
market-data enrichment, which does not change the not-found path or the
stored state. -/
def listDeckStocksRoute (st : Storage) (user : User)
    (deckId : Nat) : RouteResult (List Stock) × Storage :=
  match getDeck st deckId with
  | none => (.err 404 "Deck not found", st)
  | some deck =>
    if deck.userId ≠ user.id then (.err 404 "Deck not found", st)
    else (.ok (getDeckStocks st deckId), st)

/-- Route `POST /api/decks/:id/stocks` (registerRoutes): ownership guard,
then the tier lookup, then — in this order — the stock-count limit check and
the duplicate-symbol check, then `MemStorage.createStock`. -/
def addStockRoute (st : Storage) (user : User) (deckId : Nat) (body : StockBody)
    (now : Nat) : RouteResult Stock × Storage :=
  match getDeck st deckId with
  | none => (.err 404 "Deck not found", st)
  | some deck =>
    if deck.userId ≠ user.id then (.err 404 "Deck not found", st)
    else
      match TIER_LIMITS user.tier with
      | none => (.err 500 "Internal server error", st)
      | some tierLimits =>
        let existingStocks := getDeckStocks st deckId
        if tierLimits.maxStocksPerDeck ≠ -1 ∧
            (existingStocks.length : Int) ≥ tierLimits.maxStocksPerDeck then
          (.err 400 "Stock limit reached for your tier", st)
        else if existingStocks.any (fun s => s.symbol == body.symbol) then
          (.err 400 "Stock already exists in this deck", st)
        else
          let created := createStockStorage st deckId body now
          (.ok created.1, created.2)

/-- Route `PUT /api/stocks/:id` (registerRoutes): a stock that is absent, or
whose parent deck is absent or owned by a different user, yields the same
404; otherwise the request body is passed to `MemStorage.updateStock`
unfiltered. -/
def updateStockRoute (st : Storage) (user : User) (stockId : Nat) (p : StockPatch)
    (now : Nat) : RouteResult Stock × Storage :=
  match getStock st stockId with
  | none => (.err 404 "Stock not found", st)
  | some stock =>
    match getDeck st stock.deckId with
    | none => (.err 404 "Stock not found", st)
    | some deck =>
      if deck.userId ≠ user.id then (.err 404 "Stock not found", st)
      else
        let updated := updateStockStorage st stockId p now
        match updated.1 with
        | some s => (.ok s, updated.2)
        | none => (.err 500 "Internal server error", updated.2)

/-- Route `DELETE /api/stocks/:id` (registerRoutes): the same guard as
`updateStockRoute`, then `MemStorage.deleteStock`. -/
def deleteStockRoute (st : Storage) (user : User)
    (stockId : Nat) : RouteResult Bool × Storage :=
  match getStock st stockId with
  | none => (.err 404 "Stock not found", st)
  | some stock =>
    match getDeck st stock.deckId with
    | none => (.err 404 "Stock not found", st)
    | some deck =>
      if deck.userId ≠ user.id then (.err 404 "Stock not found", st)
      else (.ok true, deleteStockStorage st stockId)

/-- Iterate a sequence of `POST /api/decks/:id/stocks` requests, each with
its own body and timestamp, threading the storage state through. -/
def runAddStocks (st : Storage) (user : User) (deckId : Nat)
    (requests : List (StockBody × Nat)) : Storage :=
  requests.foldl (fun acc r => (addStockRoute acc user deckId r.1 r.2).2) st

/-- A stock entry of the Python `DeckManager` (`DeckStock` dataclass).  The
`performance_data` dictionary is relevant to the claims only through the
presence of its `return_percent` key, modelled as `performanceReturnPercent`;
`custom_data` is opaque and omitted. -/
structure PyDeckStock where
  symbol : String
  status : String
  notes : Option String := none
  targetPrice : Option ℚ := none
  stopLoss : Option ℚ := none
  positionSize : Option ℚ := none
  appliedStrategies : List String := []
  tags : List String := []
  performanceReturnPercent : Option ℚ := none
  addedAt : Nat := 0
  lastUpdated : Nat := 0
deriving Repr, DecidableEq

/-- A deck of the Python `DeckManager` (`UserDeck` dataclass), restricted to
the fields the verified operations read or write. -/
structure PyDeck where
  deckId : String
  userId : String
  name : String
  stocks : List PyDeckStock
  updatedAt : Nat
deriving Repr, DecidableEq

/-- The Python tier table `DeckManager.tier_limits` carries the same
`max_decks` / `max_stocks_per_deck` / `max_strategies_per_stock` / `features`
values as the TypeScript `TIER_LIMITS`; the operations below therefore take a
`TierLimit` resolved from the same table.  (Its extra `search_results_limit`
and notification-channel fields are not read by any verified operation.)

`DeckManager.apply_strategy_to_stock`: look up the deck, find the stock by
symbol, enforce the strategy-count limit (`max_strategies > 0` is the
bounded case — the unlimited sentinel `-1` skips the check), reject a
duplicate strategy id, then append the id, set the status to
`strategy_applied` and refresh the timestamps. -/
def applyStrategyToStock (deck : Option PyDeck) (symbol strategyId : String)
    (tierConfig : TierLimit) (now : Nat) : Except (Nat × String) PyDeck :=
  match deck with
  | none => .error (404, "Deck not found")
  | some deck =>
    match deck.stocks.find? (fun s => s.symbol == symbol) with
    | none => .error (404, "Stock not found in deck")
    | some stock =>
      if tierConfig.maxStrategiesPerStock > 0 ∧
          (stock.appliedStrategies.length : Int) ≥ tierConfig.maxStrategiesPerStock then
        .error (400, "Strategy limit reached for your tier")
      else if strategyId ∈ stock.appliedStrategies then
        .error (400, "Strategy already applied to this stock")
      else
        let updatedStock :=
          { stock with
            appliedStrategies := stock.appliedStrategies ++ [strategyId]
            status := "strategy_applied"
            lastUpdated := now }
        .ok { deck with
              stocks := deck.stocks.map (fun s => if s.symbol == symbol then updatedStock else s)
              updatedAt := now }

/-- The four per-return statistics `get_deck_analytics` adds under the
`basic_analytics` feature: `statistics.mean`, `max`, `min` and `sum` of the
recorded returns. -/
structure BasicStats where
  averageReturn : ℚ
  bestPerformer : ℚ
  worstPerformer : ℚ
  totalReturn : ℚ
deriving Repr, DecidableEq

/-- The analytics dictionary built by `DeckManager.get_deck_analytics`; the
per-return block is `some` exactly when the Python code executes
`analytics.update({'average_return': ...})`, i.e. when the tier has the
`basic_analytics` feature and at least one stock has a recorded
`return_percent`. -/
structure DeckAnalytics where
  totalStocks : Nat
  activeStrategies : Nat
  basicStats : Option BasicStats
deriving Repr, DecidableEq

/-- The returns list gathered by `get_deck_analytics`: one entry per stock
whose `performance_data` records a `return_percent`. -/
def deckReturns (deck : PyDeck) : List ℚ :=
  deck.stocks.filterMap (fun s => s.performanceReturnPercent)

/-- `DeckManager.get_deck_analytics`, for a deck that exists (the advanced
and historical blocks add further keys under higher-tier features and are
orthogonal to the per-return statistics). -/
def getDeckAnalytics (deck : PyDeck) (tierConfig : TierLimit) : DeckAnalytics :=
  { totalStocks := deck.stocks.length
    activeStrategies := (deck.stocks.map (fun s => s.appliedStrategies.length)).sum
    basicStats :=
      if "basic_analytics" ∈ tierConfig.features then
        match deckReturns deck with
        | [] => none
        | r :: rs =>
          some
            { averageReturn := (r :: rs).sum / ((r :: rs).length : ℚ)
              bestPerformer := rs.foldl max r
              worstPerformer := rs.foldl min r
              totalReturn := (r :: rs).sum }
      else none }

/-- The upstream data `MarketDataService.getStockQuote` assembles from its
three Polygon requests: the last trade price, the previous close, and the
reference details.  Each piece is optional exactly where the TypeScript uses
optional chaining.  An upstream failure of the combined fetch is the `none`
case of the oracle below. -/
structure UpstreamQuote where
  lastPrice : Option ℚ
  prevClose : Option ℚ
  name : Option String
  sicDescription : Option String
  marketCap : Option ℚ
  description : Option String
deriving Repr, DecidableEq

/-- The normalized quote `MarketStock` of market-data.ts. -/
structure MarketStock where
  symbol : String
  name : String
  price : ℚ
  change : ℚ
  changePercent : ℚ
  sector : String
  marketCap : Option ℚ := none
  description : Option String := none
deriving Repr, DecidableEq

/-- `MarketDataService.getStockQuote`.  The upstream fetch is an oracle:
`some u` is a successful round of Polygon requests, `none` is any thrown
upstream failure (missing API key, non-OK response, network error), which
the catch block converts into the fallback quote rather than re-raising.
The short-lived response cache is elided: a cache hit returns a previously
computed quote and performs no upstream call at all. -/
def getStockQuote (symbol : String) (upstream : Option UpstreamQuote) : MarketStock :=
  match upstream with
  | some u =>
    let currentPrice := (u.lastPrice).getD 0
    let prevClose := (u.prevClose).getD currentPrice
    let change := currentPrice - prevClose
    let changePercent := if prevClose > 0 then change / prevClose * 100 else 0
    { symbol := symbol.toUpper
      name := (u.name).getD (symbol ++ " Corp.")
      price := currentPrice
      change := change
      changePercent := changePercent
      sector := (u.sicDescription).getD "Unknown"
      marketCap := u.marketCap
      description := u.description }
  | none =>
    { symbol := symbol.toUpper
      name := symbol ++ " Corp."
      price := 100
      change := 0
      changePercent := 0
      sector := "Unknown" }

/-- One row of the Polygon ticker search response. -/
structure TickerResult where
  symbol : String
  name : Option String
deriving Repr, DecidableEq

/-- `MarketDataService.searchStocks`: when the ticker search itself fails
the catch block returns the empty list; on success each ticker is quoted via
`getStockQuote` (whose own oracle is `quoteUpstream`) and quotes with a
non-positive price are filtered out. -/
def searchStocks (limit : Nat) (searchUpstream : Option (List TickerResult))
    (quoteUpstream : String → Option UpstreamQuote) : List MarketStock :=
  match searchUpstream with
  | none => []
  | some tickers =>
    let quotes := (tickers.take limit).map (fun t => getStockQuote t.symbol (quoteUpstream t.symbol))
    quotes.filter (fun q => q.price > 0)

/-- Demo user in the mould of the seeded `john_doe`, with a chosen id and
tier. -/
def demoUser (id tier : Nat) : User :=
  { id := id, username := "john_doe", password := "password123"
    email := "john@example.com", tier := tier, createdAt := 0, updatedAt := 0 }

/-- A deck row with the defaulted columns, for concrete scenarios. -/
def demoDeck (id userId : Nat) (name : String) : Deck :=
  { id := id, userId := userId, name := name, description := none
    type := "watchlist", isPublic := false, settings := [], createdAt := 0, updatedAt := 0 }

/-- A freshly added stock row with the defaulted columns, for concrete
scenarios. -/
def demoStock (id deckId : Nat) (symbol : String) : Stock :=
  { id := id, deckId := deckId, symbol := symbol, notes := none
    targetPrice := none, stopLoss := none, positionSize := none
    status := "watching", tags := [], appliedStrategies := []
    performanceData := [], addedAt := 0, lastUpdated := 0 }

/-- Freemium user (tier 1: `maxDecks = 1`, `maxStocksPerDeck = 3`,
`maxStrategiesPerStock = 1`). -/
def userFree : User := demoUser 1 1

/-- A second user, used as the foreign owner in ownership scenarios. -/
def userOther : User := demoUser 2 1

/-- A user whose stored tier value 8 lies outside the `DataTier`
enumeration. -/
def userBadTier : User := demoUser 3 8

/-- Storage holding one fresh (empty) deck owned by the freemium user. -/
def stFreshDeck : Storage :=
  { decks := [demoDeck 1 1 "Watchlist"], stocks := [], currentDeckId := 2, currentStockId := 1 }

/-- Storage in which the freemium user's deck already holds three stocks —
exactly the tier's `maxStocksPerDeck`. -/
def stFullDeck : Storage :=
  { decks := [demoDeck 1 1 "Watchlist"]
    stocks := [demoStock 1 1 "AAPL", demoStock 2 1 "MSFT", demoStock 3 1 "TSLA"]
    currentDeckId := 2, currentStockId := 4 }

/-- Storage in which the freemium user's deck holds a single stock with no
applied strategies. -/
def stOneStock : Storage :=
  { decks := [demoDeck 1 1 "Watchlist"], stocks := [demoStock 1 1 "AAPL"]
    currentDeckId := 2, currentStockId := 2 }

/-- Storage in which deck 1 and its stock 1 belong to `userOther`, not to
the requesting `userFree`. -/
def stForeignDeck : Storage :=
  { decks := [demoDeck 1 2 "Watchlist"], stocks := [demoStock 1 1 "AAPL"]
    currentDeckId := 2, currentStockId := 2 }

/-- Empty storage: no decks, no stocks. -/
def stEmpty : Storage :=
  { decks := [], stocks := [], currentDeckId := 1, currentStockId := 1 }

/-- The tier-1 (Freemium) entitlement profile, as in the table. -/
def freemiumLimits : TierLimit :=
  ⟨1, 3, 1, ["basic_tracking", "simple_notes"]⟩

/-- The tier-2 (Market Hours Pro) entitlement profile, as in the table; the
first tier carrying the `basic_analytics` feature. -/
def proLimits : TierLimit :=
  ⟨3, 15, 2, ["basic_tracking", "simple_notes", "price_targets", "basic_analytics"]⟩

/-- A `PUT /api/stocks/:id` body that overwrites `appliedStrategies` with a
two-element list. -/
def twoStrategiesPatch : StockPatch :=
  { appliedStrategies := some ["s1", "s2"] }

/-- A `PUT /api/stocks/:id` body touching fields the spec treats as fixed:
`deckId`, `symbol` and `appliedStrategies`, plus `notes`. -/
def fixedFieldsPatch : StockPatch :=
  { deckId := some 99, symbol := some "MSFT", notes := some (some "moved")
    appliedStrategies := some ["a", "b", "c"] }

/-- The deck produced by `POST /api/decks` on `stEmpty` with the empty-string
name at time 5. -/
def emptyNameDeck : Deck :=
  { id := 1, userId := 1, name := "", description := none, type := "watchlist"
    isPublic := false, settings := [], createdAt := 5, updatedAt := 5 }

/-- A Python deck stock with no applied strategies. -/
def pyStockFresh : PyDeckStock := { symbol := "AAPL", status := "watching" }

/-- `pyStockFresh` after one strategy application at time 7. -/
def pyStockApplied : PyDeckStock :=
  { symbol := "AAPL", status := "strategy_applied"
    appliedStrategies := ["ma-cross"], lastUpdated := 7 }

/-- A Python deck stock already carrying one applied strategy — the Freemium
`maxStrategiesPerStock`. -/
def pyStockAtLimit : PyDeckStock :=
  { symbol := "AAPL", status := "strategy_applied", appliedStrategies := ["ma-cross"] }

/-- A Python deck holding `pyStockFresh`. -/
def pyDeckFresh : PyDeck :=
  { deckId := "d1", userId := "u1", name := "Watchlist", stocks := [pyStockFresh], updatedAt := 0 }

/-- `pyDeckFresh` after applying `ma-cross` to `AAPL` at time 7. -/
def pyDeckApplied : PyDeck :=
  { deckId := "d1", userId := "u1", name := "Watchlist", stocks := [pyStockApplied], updatedAt := 7 }

/-- A Python deck whose only stock is at the Freemium strategy limit. -/
def pyDeckAtLimit : PyDeck :=
  { deckId := "d1", userId := "u1", name := "Watchlist", stocks := [pyStockAtLimit], updatedAt := 0 }

/-! Helper lemmas about the fold of per-child deletions performed by
`deleteDeckStorage`. -/

/-- Deleting children only ever removes rows: anything left after the fold
was already in the accumulator. -/
lemma mem_of_mem_foldl_delete {l acc : List Stock} {x : Stock}
    (hx : x ∈ l.foldl (fun a s => a.filter (fun s2 => s2.id != s.id)) acc) : x ∈ acc := by
  induction l generalizing acc with
  | nil => simpa using hx
  | cons s l ih => exact List.mem_of_mem_filter (ih hx)

/-- A row absent from the accumulator stays absent through the fold. -/
lemma not_mem_foldl_delete_of_not_mem {l acc : List Stock} {x : Stock}
    (h : x ∉ acc) : x ∉ l.foldl (fun a s => a.filter (fun s2 => s2.id != s.id)) acc :=
  fun hx => h (mem_of_mem_foldl_delete hx)

/-- Every row listed for deletion is gone after the fold. -/
lemma not_mem_foldl_delete_of_mem {l acc : List Stock} {x : Stock}
    (hx : x ∈ l) : x ∉ l.foldl (fun a s => a.filter (fun s2 => s2.id != s.id)) acc := by
  induction l generalizing acc with
  | nil => simp at hx
  | cons s l ih =>
    rw [List.foldl_cons]
    rcases List.mem_cons.mp hx with rfl | hmem
    · apply not_mem_foldl_delete_of_not_mem
      intro hmem2
      have h2 := (List.mem_filter.mp hmem2).2
      simp at h2
    · exact ih hmem

/-- Claim C6: deleting a deck cascades — afterwards no stored stock carries the
deck's id, the deck's stock list is empty, a lookup of any previously
existing `(deckId, symbol)` pair finds nothing, the deck row itself is gone,
and the stock-listing route answers 404 Not Found for the deck. -/
theorem deleteDeck_cascades (st : Storage) (deckId : Nat) (symbol : String) (user : User) :
    (∀ s ∈ (deleteDeckStorage st deckId).stocks, s.deckId ≠ deckId) ∧
    getDeckStocks (deleteDeckStorage st deckId) deckId = [] ∧
    (getDeckStocks (deleteDeckStorage st deckId) deckId).find?
      (fun s => s.symbol == symbol) = none ∧
    getDeck (deleteDeckStorage st deckId) deckId = none ∧
    listDeckStocksRoute (deleteDeckStorage st deckId) user deckId =
      (.err 404 "Deck not found", deleteDeckStorage st deckId) := by
  have hstocks : ∀ s ∈ (deleteDeckStorage st deckId).stocks, s.deckId ≠ deckId := by
    intro s hs h
    have h1 : s ∈ st.stocks := mem_of_mem_foldl_delete hs
    have h2 : s ∈ getDeckStocks st deckId := by
      simp [getDeckStocks, List.mem_filter, h1, h]
    exact not_mem_foldl_delete_of_mem h2 hs
  have hempty : getDeckStocks (deleteDeckStorage st deckId) deckId = [] := by
    refine List.filter_eq_nil_iff.mpr ?_
    intro s hs
    simpa using hstocks s hs
  have hdeck : getDeck (deleteDeckStorage st deckId) deckId = none := by
    refine List.find?_eq_none.mpr ?_
    intro d hd
    have h2 := (List.mem_filter.mp hd).2
    simpa using h2
  refine ⟨hstocks, hempty, by simp [hempty], hdeck, ?_⟩
  unfold listDeckStocksRoute
  rw [hdeck]

/-- Every finite numeric bound in the tier table is strictly positive: an
entry's field is either the unlimited sentinel `-1` or a positive limit. -/
lemma TIER_LIMITS_bounds (t : Nat) (tl : TierLimit) (h : TIER_LIMITS t = some tl) :
    (tl.maxDecks = -1 ∨ 0 < tl.maxDecks) ∧
    (tl.maxStocksPerDeck = -1 ∨ 0 < tl.maxStocksPerDeck) ∧
    (tl.maxStrategiesPerStock = -1 ∨ 0 < tl.maxStrategiesPerStock) := by
  unfold TIER_LIMITS at h
  split at h <;> simp_all <;> subst h <;> decide

/-- One `POST /api/decks/:id/stocks` request keeps the deck's stock count
within a finite tier bound: every rejecting branch leaves the state
unchanged, and the inserting branch has passed the limit check. -/
lemma addStock_step_le (user : User) (tl : TierLimit)
    (hTier : TIER_LIMITS user.tier = some tl) (hFin : tl.maxStocksPerDeck ≠ -1)
    (st : Storage) (deckId : Nat) (body : StockBody) (now : Nat)
    (h : ((getDeckStocks st deckId).length : Int) ≤ tl.maxStocksPerDeck) :
    ((getDeckStocks (addStockRoute st user deckId body now).2 deckId).length : Int)
      ≤ tl.maxStocksPerDeck := by
  unfold addStockRoute
  split
  · simpa using h
  next deck hdeck =>
    split
    · simpa using h
    next hu =>
      split
      · simpa using h
      next tl2 htl =>
        rw [hTier] at htl
        have htl2 : tl = tl2 := Option.some.inj htl
        subst htl2
        dsimp only
        split
        · simpa using h
        next hlim =>
          split
          · simpa using h
          next hdup =>
            have hlt : ((getDeckStocks st deckId).length : Int) < tl.maxStocksPerDeck := by
              rcases not_and_or.mp hlim with hc | hc
              · exact absurd hFin (by simpa using hc)
              · omega
            have hins :
                getDeckStocks (createStockStorage st deckId body now).2 deckId =
                  getDeckStocks st deckId ++ [(createStockStorage st deckId body now).1] := by
              simp [getDeckStocks, createStockStorage, List.filter_append]
            dsimp only
            rw [hins]
            push_cast [List.length_append, List.length_cons, List.length_nil]
            omega

/-- Iterating `addStock` requests preserves the finite stock-count bound. -/
lemma runAddStocks_le (user : User) (tl : TierLimit)
    (hTier : TIER_LIMITS user.tier = some tl) (hFin : tl.maxStocksPerDeck ≠ -1) :
    ∀ (requests : List (StockBody × Nat)) (st : Storage) (deckId : Nat),
      ((getDeckStocks st deckId).length : Int) ≤ tl.maxStocksPerDeck →
      ((getDeckStocks (runAddStocks st user deckId requests) deckId).length : Int)
        ≤ tl.maxStocksPerDeck
  | [], _, _, h => h
  | r :: rs, st, deckId, h =>
    runAddStocks_le user tl hTier hFin rs (addStockRoute st user deckId r.1 r.2).2 deckId
      (addStock_step_le user tl hTier hFin st deckId r.1 r.2 h)

/-- Claim C1: for a tier whose `maxStocksPerDeck` is a finite bound, a fresh deck's
stock count never exceeds the bound under any sequence of `addStock`
requests; and once the count has reached the bound, every further `addStock`
on the (existing, owned) deck fails with the limit error and changes
nothing. -/
theorem addStock_respects_stock_limit (user : User) (tl : TierLimit)
    (hTier : TIER_LIMITS user.tier = some tl) (hFin : tl.maxStocksPerDeck ≠ -1) :
    (∀ (st : Storage) (deckId : Nat) (requests : List (StockBody × Nat)),
      getDeckStocks st deckId = [] →
      ((getDeckStocks (runAddStocks st user deckId requests) deckId).length : Int)
        ≤ tl.maxStocksPerDeck)
    ∧
    (∀ (st : Storage) (deckId : Nat) (deck : Deck) (body : StockBody) (now : Nat),
      getDeck st deckId = some deck → deck.userId = user.id →
      ((getDeckStocks st deckId).length : Int) ≥ tl.maxStocksPerDeck →
      addStockRoute st user deckId body now =
        (.err 400 "Stock limit reached for your tier", st)) := by
  constructor
  · intro st deckId requests hfresh
    have h0 : ((getDeckStocks st deckId).length : Int) ≤ tl.maxStocksPerDeck := by
      rw [hfresh]
      have := (TIER_LIMITS_bounds user.tier tl hTier).2.1
      rcases this with hc | hc
      · exact absurd hc hFin
      · simpa using le_of_lt hc
    exact runAddStocks_le user tl hTier hFin requests st deckId h0
  · intro st deckId deck body now hdeck howner hge
    unfold addStockRoute
    rw [hdeck]
    simp only [howner, ne_eq, not_true_eq_false, if_false, hTier]
    rw [if_pos ⟨hFin, hge⟩]

/-- Witness for C1: five add requests against the fresh Freemium deck leave
at most three stocks, and adding to the full deck fails with the limit error
and changes nothing. -/
theorem addStock_respects_stock_limit_witness :
    ((getDeckStocks (runAddStocks stFreshDeck userFree 1
        [({ symbol := "AAPL" }, 1), ({ symbol := "MSFT" }, 2), ({ symbol := "TSLA" }, 3),
         ({ symbol := "GOOGL" }, 4), ({ symbol := "NVDA" }, 5)]) 1).length : Int)
      ≤ freemiumLimits.maxStocksPerDeck ∧
    addStockRoute stFullDeck userFree 1 { symbol := "GOOGL" } 9 =
      (.err 400 "Stock limit reached for your tier", stFullDeck) := by
  have h := addStock_respects_stock_limit userFree freemiumLimits rfl (by decide)
  exact ⟨h.1 stFreshDeck 1 _ rfl,
    h.2 stFullDeck 1 (demoDeck 1 1 "Watchlist") { symbol := "GOOGL" } 9 rfl rfl (by decide)⟩

/-- The tier table has an entry exactly for the `DataTier` values 1..7. -/
lemma TIER_LIMITS_none_iff : ∀ t : Nat, TIER_LIMITS t = none ↔ (t = 0 ∨ 8 ≤ t)
  | 0 => by decide
  | 1 => by decide
  | 2 => by decide
  | 3 => by decide
  | 4 => by decide
  | 5 => by decide
  | 6 => by decide
  | 7 => by decide
  | n + 8 => by
    rw [show TIER_LIMITS (n + 8) = none from rfl]
    exact ⟨fun _ => by omega, fun _ => rfl⟩

/-- Claim C4 (amended): a tier outside the enumeration 1..7 has no table
entry, and a `createDeck` or `addStock` request for such a user never
mutates state and never succeeds under a default profile — but the surfaced
failure is the generic 500 "Internal server error" produced by the undefined
table lookup throwing, not a tier-specific UnknownTier error. -/
theorem unknown_tier_never_defaults (st : Storage) (user : User) (body : DeckBody)
    (deckId : Nat) (deck : Deck) (sbody : StockBody) (now : Nat)
    (hNone : TIER_LIMITS user.tier = none) :
    createDeckRoute st user body now = (.err 500 "Internal server error", st) ∧
    (getDeck st deckId = some deck → deck.userId = user.id →
      addStockRoute st user deckId sbody now = (.err 500 "Internal server error", st)) ∧
    (∀ t, TIER_LIMITS t = none ↔ (t = 0 ∨ 8 ≤ t)) := by
  refine ⟨?_, ?_, TIER_LIMITS_none_iff⟩
  · unfold createDeckRoute
    rw [hNone]
  · intro hdeck howner
    unfold addStockRoute
    rw [hdeck]
    dsimp only
    rw [if_neg (by simp [howner]), hNone]

/-- Counterexample for C4: a user whose stored tier is 8 gets the generic
500 internal error from `createDeck` — not a tier-specific failure. -/
theorem unknown_tier_generic_error_counterexample :
    userBadTier.tier = 8 ∧
    TIER_LIMITS userBadTier.tier = none ∧
    createDeckRoute stEmpty userBadTier { name := some "My Deck" } 5 =
      (.err 500 "Internal server error", stEmpty) := by decide

/-- Witness for the amended C4 theorem at a concrete out-of-range tier. -/
theorem unknown_tier_never_defaults_witness :
    createDeckRoute stEmpty userBadTier { name := some "Growth" } 6 =
      (.err 500 "Internal server error", stEmpty) :=
  (unknown_tier_never_defaults stEmpty userBadTier { name := some "Growth" } 1
    (demoDeck 1 1 "Watchlist") { symbol := "AAPL" } 6 (by rfl)).1

/-- Claim C5 (amended): `createDeck` fails with the deck-limit error and
creates nothing when the user's deck count has reached a finite `maxDecks`;
below the limit it fails with the validation error only when the `name`
field is absent from the body, and otherwise succeeds with a fresh id and
`createdAt = updatedAt = now` — the empty-string name is not rejected. -/
theorem createDeck_contract (st : Storage) (user : User) (body : DeckBody) (now : Nat)
    (tl : TierLimit) (hTier : TIER_LIMITS user.tier = some tl) :
    ((tl.maxDecks ≠ -1 ∧ ((getUserDecks st user.id).length : Int) ≥ tl.maxDecks) →
      createDeckRoute st user body now = (.err 400 "Deck limit reached for your tier", st)) ∧
    (¬(tl.maxDecks ≠ -1 ∧ ((getUserDecks st user.id).length : Int) ≥ tl.maxDecks) →
      body.name = none →
      createDeckRoute st user body now = (.err 400 "Invalid deck data", st)) ∧
    (¬(tl.maxDecks ≠ -1 ∧ ((getUserDecks st user.id).length : Int) ≥ tl.maxDecks) →
      ∀ n, body.name = some n →
      createDeckRoute st user body now =
        (.ok { id := st.currentDeckId, userId := user.id, name := n,
               description := body.description, type := (body.type).getD "watchlist",
               isPublic := (body.isPublic).getD false, settings := (body.settings).getD [],
               createdAt := now, updatedAt := now },
         { st with
            decks := st.decks ++
              [{ id := st.currentDeckId, userId := user.id, name := n,
                 description := body.description, type := (body.type).getD "watchlist",
                 isPublic := (body.isPublic).getD false, settings := (body.settings).getD [],
                 createdAt := now, updatedAt := now }],
            currentDeckId := st.currentDeckId + 1 })) := by
  unfold createDeckRoute
  rw [hTier]
  dsimp only
  by_cases hlim : tl.maxDecks ≠ -1 ∧ ((getUserDecks st user.id).length : Int) ≥ tl.maxDecks
  · rw [if_pos hlim]
    exact ⟨fun _ => rfl, fun hc => absurd hlim hc, fun hc => absurd hlim hc⟩
  · rw [if_neg hlim]
    refine ⟨fun hc => absurd hc hlim, ?_, ?_⟩
    · intro _ hname
      rw [hname]
    · intro _ n hname
      rw [hname]
      rfl

/-- Counterexample for C5: a deck creation with the empty-string name
succeeds (the zod schema only requires the field to be present), so the
claimed ValidationError for `name = ""` does not occur. -/
theorem createDeck_empty_name_counterexample :
    createDeckRoute stEmpty userFree { name := some "" } 5 =
      (.ok emptyNameDeck,
       { decks := [emptyNameDeck], stocks := [], currentDeckId := 2, currentStockId := 1 }) ∧
    emptyNameDeck.name = "" := by decide

/-- Witness for the amended C5 theorem: the Freemium user with one deck is
refused a second one, and a creation on empty storage succeeds with fresh id
1 and both timestamps set to the request time. -/
theorem createDeck_contract_witness :
    createDeckRoute stFreshDeck userFree { name := some "Second" } 6 =
      (.err 400 "Deck limit reached for your tier", stFreshDeck) ∧
    createDeckRoute stEmpty userFree { name := some "Growth" } 7 =
      (.ok { id := 1, userId := 1, name := "Growth", description := none, type := "watchlist",
             isPublic := false, settings := [], createdAt := 7, updatedAt := 7 },
       { decks := [{ id := 1, userId := 1, name := "Growth", description := none,
                     type := "watchlist", isPublic := false, settings := [],
                     createdAt := 7, updatedAt := 7 }],
         stocks := [], currentDeckId := 2, currentStockId := 1 }) := by
  have h1 := createDeck_contract stFreshDeck userFree { name := some "Second" } 6
    freemiumLimits rfl
  have h2 := createDeck_contract stEmpty userFree { name := some "Growth" } 7
    freemiumLimits rfl
  exact ⟨h1.1 (by decide), h2.2.2 (by decide) "Growth" rfl⟩

/-- Claim C3 (amended): adding an already-present symbol to an owned deck
always fails and inserts nothing, but the surfaced error depends on the
stock count: below a finite `maxStocksPerDeck` (or with the unlimited
sentinel) it is the duplicate error, while at or above the finite limit the
limit check fires first and the error is the limit error instead. -/
theorem duplicate_add_rejected (st : Storage) (user : User) (deckId : Nat) (deck : Deck)
    (tl : TierLimit) (body : StockBody) (now : Nat)
    (hdeck : getDeck st deckId = some deck) (howner : deck.userId = user.id)
    (hTier : TIER_LIMITS user.tier = some tl)
    (hdup : (getDeckStocks st deckId).any (fun s => s.symbol == body.symbol) = true) :
    (addStockRoute st user deckId body now).2 = st ∧
    (¬(tl.maxStocksPerDeck ≠ -1 ∧
        ((getDeckStocks st deckId).length : Int) ≥ tl.maxStocksPerDeck) →
      (addStockRoute st user deckId body now).1 = .err 400 "Stock already exists in this deck") ∧
    ((tl.maxStocksPerDeck ≠ -1 ∧
        ((getDeckStocks st deckId).length : Int) ≥ tl.maxStocksPerDeck) →
      (addStockRoute st user deckId body now).1 = .err 400 "Stock limit reached for your tier") := by
  unfold addStockRoute
  rw [hdeck]
  dsimp only
  rw [if_neg (by simp [howner]), hTier]
  dsimp only
  by_cases hlim : tl.maxStocksPerDeck ≠ -1 ∧
      ((getDeckStocks st deckId).length : Int) ≥ tl.maxStocksPerDeck
  · rw [if_pos hlim]
    exact ⟨rfl, fun hc => absurd hlim hc, fun _ => rfl⟩
  · rw [if_neg hlim, if_pos hdup]
    exact ⟨rfl, fun _ => rfl, fun hc => absurd hc hlim⟩

/-- Counterexample for C3: on the Freemium deck that already holds its
three-stock limit, re-adding the already-present symbol AAPL fails with the
limit error, not the duplicate error the claim requires. -/
theorem duplicate_add_at_limit_counterexample :
    (getDeckStocks stFullDeck 1).any (fun s => s.symbol == "AAPL") = true ∧
    addStockRoute stFullDeck userFree 1 { symbol := "AAPL" } 9 =
      (.err 400 "Stock limit reached for your tier", stFullDeck) ∧
    (RouteResult.err 400 "Stock limit reached for your tier" : RouteResult Stock) ≠
      .err 400 "Stock already exists in this deck" := by decide

/-- Witness for the amended C3 theorem: below the limit the duplicate error
is surfaced and the state is unchanged. -/
theorem duplicate_add_rejected_witness :
    (addStockRoute stOneStock userFree 1 { symbol := "AAPL" } 9).1 =
      .err 400 "Stock already exists in this deck" ∧
    (addStockRoute stOneStock userFree 1 { symbol := "AAPL" } 9).2 = stOneStock := by
  have h := duplicate_add_rejected stOneStock userFree 1 (demoDeck 1 1 "Watchlist")
    freemiumLimits { symbol := "AAPL" } 9 rfl rfl rfl (by decide)
  exact ⟨h.2.1 (by decide), h.1⟩

/-- Claim C2 (amended): the `applyStrategy` path does enforce invariant 3 —
under a finite positive `maxStrategiesPerStock` it keeps every stock's
applied-strategy count within the bound and rejects an application to a
stock already at the bound with the limit error — but the `updateStock`
path applies an `appliedStrategies` patch without any limit check, so that
mutation can push the count past the bound (see the counterexample). -/
theorem applyStrategy_respects_strategy_limit (deck : PyDeck) (tierConfig : TierLimit)
    (hFin : 0 < tierConfig.maxStrategiesPerStock)
    (hInv : ∀ s ∈ deck.stocks,
      (s.appliedStrategies.length : Int) ≤ tierConfig.maxStrategiesPerStock) :
    (∀ symbol strategyId now deck2,
      applyStrategyToStock (some deck) symbol strategyId tierConfig now = .ok deck2 →
      ∀ s ∈ deck2.stocks,
        (s.appliedStrategies.length : Int) ≤ tierConfig.maxStrategiesPerStock)
    ∧
    (∀ symbol strategyId now stock,
      deck.stocks.find? (fun s => s.symbol == symbol) = some stock →
      (stock.appliedStrategies.length : Int) ≥ tierConfig.maxStrategiesPerStock →
      applyStrategyToStock (some deck) symbol strategyId tierConfig now =
        .error (400, "Strategy limit reached for your tier")) := by
  constructor
  · intro symbol strategyId now deck2 happly s hs
    unfold applyStrategyToStock at happly
    dsimp only at happly
    split at happly
    · exact absurd happly (by simp)
    next stock hfind =>
      split at happly
      · exact absurd happly (by simp)
      next hlim =>
        split at happly
        · exact absurd happly (by simp)
        next hdup =>
          have hdeck2 := Except.ok.inj happly
          subst hdeck2
          dsimp only at hs
          rcases List.mem_map.mp hs with ⟨t, ht, rfl⟩
          have hstockmem : stock ∈ deck.stocks := List.mem_of_find?_eq_some hfind
          have hlt : (stock.appliedStrategies.length : Int) < tierConfig.maxStrategiesPerStock := by
            rcases not_and_or.mp hlim with hc | hc
            · exact absurd hFin hc
            · have := hInv stock hstockmem
              omega
          by_cases hsym : (t.symbol == symbol) = true
          · rw [if_pos hsym]
            dsimp only
            push_cast [List.length_append, List.length_cons, List.length_nil]
            omega
          · rw [if_neg hsym]
            exact hInv t ht
  · intro symbol strategyId now stock hfind hge
    unfold applyStrategyToStock
    dsimp only
    rw [hfind]
    dsimp only
    rw [if_pos ⟨hFin, hge⟩]

/-- Counterexample for C2: a Freemium user (strategy limit 1) sends a
`PUT /api/stocks/:id` whose body sets `appliedStrategies` to a two-element
list; the route succeeds and stores a stock with two applied strategy ids —
a mutation the program exposes that takes the count past the tier bound. -/
theorem strategy_limit_bypassed_counterexample :
    TIER_LIMITS userFree.tier = some freemiumLimits ∧
    freemiumLimits.maxStrategiesPerStock = 1 ∧
    updateStockRoute stOneStock userFree 1 twoStrategiesPatch 20 =
      (.ok { demoStock 1 1 "AAPL" with appliedStrategies := ["s1", "s2"], lastUpdated := 20 },
       { stOneStock with
          stocks := [{ demoStock 1 1 "AAPL" with
                        appliedStrategies := ["s1", "s2"], lastUpdated := 20 }] }) ∧
    (({ demoStock 1 1 "AAPL" with
        appliedStrategies := ["s1", "s2"], lastUpdated := 20 } : Stock).appliedStrategies.length : Int)
      > freemiumLimits.maxStrategiesPerStock := by decide

/-- Witness for the amended C2 theorem: on a Freemium deck, the applied
count stays within the bound after a successful application, and applying
to a stock already at the bound fails with the limit error. -/
theorem applyStrategy_respects_strategy_limit_witness :
    (pyStockApplied.appliedStrategies.length : Int) ≤ freemiumLimits.maxStrategiesPerStock ∧
    applyStrategyToStock (some pyDeckAtLimit) "AAPL" "rsi-momentum" freemiumLimits 9 =
      .error (400, "Strategy limit reached for your tier") := by
  have h1 := applyStrategy_respects_strategy_limit pyDeckFresh freemiumLimits
    (by decide) (by decide)
  have h2 := applyStrategy_respects_strategy_limit pyDeckAtLimit freemiumLimits
    (by decide) (by decide)
  exact ⟨h1.1 "AAPL" "ma-cross" 7 pyDeckApplied (by rfl) pyStockApplied (by decide),
         h2.2 "AAPL" "rsi-momentum" 9 pyStockAtLimit (by rfl) (by decide)⟩

/-- Claim C7: on a deck in which no stock records a `return_percent`, the
analytics result carries no per-return statistics at all (in particular no
`averageReturn` equal to 0), for every tier. -/
theorem analytics_no_data_absent (deck : PyDeck) (tierConfig : TierLimit)
    (h : ∀ s ∈ deck.stocks, s.performanceReturnPercent = none) :
    (getDeckAnalytics deck tierConfig).basicStats = none := by
  have hr : deckReturns deck = [] := by
    unfold deckReturns
    exact List.filterMap_eq_nil_iff.mpr h
  unfold getDeckAnalytics
  dsimp only
  rw [hr]
  simp

/-- Witness for C7 on a concrete one-stock deck under a tier that carries
the `basic_analytics` feature. -/
theorem analytics_no_data_absent_witness :
    (getDeckAnalytics pyDeckFresh proLimits).basicStats = none :=
  analytics_no_data_absent pyDeckFresh proLimits (by decide)

/-- Claim C8: the quote gateway degrades instead of raising — on upstream
failure `getStockQuote` returns the fallback quote for the symbol, with
change 0, changePercent 0 and sector "Unknown", and `searchStocks` returns
the empty list. -/
theorem quote_gateway_degrades (symbol : String) (limit : Nat)
    (quoteUpstream : String → Option UpstreamQuote) :
    getStockQuote symbol none =
      { symbol := symbol.toUpper, name := symbol ++ " Corp.", price := 100,
        change := 0, changePercent := 0, sector := "Unknown" } ∧
    (getStockQuote symbol none).change = 0 ∧
    (getStockQuote symbol none).changePercent = 0 ∧
    (getStockQuote symbol none).sector = "Unknown" ∧
    searchStocks limit none quoteUpstream = [] :=
  ⟨rfl, rfl, rfl, rfl, rfl⟩

/-- Claim C9: for an existing stock, `updateStock` stores exactly the old
record overridden by the fields present in the patch, with `lastUpdated` set
to the current time and every field not named in the patch unchanged; the
patch is not filtered, so this holds for arbitrary patches — including ones
that overwrite `id`, `deckId`, `symbol`, `appliedStrategies` or `addedAt` —
with no further validation. -/
theorem updateStock_merges_exactly_patched_fields (st : Storage) (id : Nat) (stock : Stock)
    (p : StockPatch) (now : Nat) (hs : getStock st id = some stock) :
    (updateStockStorage st id p now).1 = some (mergeStock stock p now) ∧
    (updateStockStorage st id p now).2 =
      { st with stocks :=
          st.stocks.map (fun s => if s.id == id then mergeStock stock p now else s) } ∧
    (mergeStock stock p now).lastUpdated = now ∧
    (p.id = none → (mergeStock stock p now).id = stock.id) ∧
    (∀ v, p.id = some v → (mergeStock stock p now).id = v) ∧
    (p.deckId = none → (mergeStock stock p now).deckId = stock.deckId) ∧
    (∀ v, p.deckId = some v → (mergeStock stock p now).deckId = v) ∧
    (p.symbol = none → (mergeStock stock p now).symbol = stock.symbol) ∧
    (∀ v, p.symbol = some v → (mergeStock stock p now).symbol = v) ∧
    (p.notes = none → (mergeStock stock p now).notes = stock.notes) ∧
    (∀ v, p.notes = some v → (mergeStock stock p now).notes = v) ∧
    (p.targetPrice = none → (mergeStock stock p now).targetPrice = stock.targetPrice) ∧
    (∀ v, p.targetPrice = some v → (mergeStock stock p now).targetPrice = v) ∧
    (p.stopLoss = none → (mergeStock stock p now).stopLoss = stock.stopLoss) ∧
    (∀ v, p.stopLoss = some v → (mergeStock stock p now).stopLoss = v) ∧
    (p.positionSize = none → (mergeStock stock p now).positionSize = stock.positionSize) ∧
    (∀ v, p.positionSize = some v → (mergeStock stock p now).positionSize = v) ∧
    (p.status = none → (mergeStock stock p now).status = stock.status) ∧
    (∀ v, p.status = some v → (mergeStock stock p now).status = v) ∧
    (p.tags = none → (mergeStock stock p now).tags = stock.tags) ∧
    (∀ v, p.tags = some v → (mergeStock stock p now).tags = v) ∧
    (p.appliedStrategies = none →
      (mergeStock stock p now).appliedStrategies = stock.appliedStrategies) ∧
    (∀ v, p.appliedStrategies = some v → (mergeStock stock p now).appliedStrategies = v) ∧
    (p.performanceData = none →
      (mergeStock stock p now).performanceData = stock.performanceData) ∧
    (∀ v, p.performanceData = some v → (mergeStock stock p now).performanceData = v) ∧
    (p.addedAt = none → (mergeStock stock p now).addedAt = stock.addedAt) ∧
    (∀ v, p.addedAt = some v → (mergeStock stock p now).addedAt = v) := by
  repeat' apply And.intro
  all_goals first
    | (unfold updateStockStorage; rw [hs])
    | rfl
    | (intro h; simp [mergeStock, h])
    | (intro v h; simp [mergeStock, h])

/-- Witness for C9: a concrete patch that rewrites `deckId`, `symbol`,
`notes` and `appliedStrategies` of the stored stock is applied verbatim. -/
theorem updateStock_merges_exactly_patched_fields_witness :
    (updateStockStorage stOneStock 1 fixedFieldsPatch 30).1 =
      some (mergeStock (demoStock 1 1 "AAPL") fixedFieldsPatch 30) :=
  (updateStock_merges_exactly_patched_fields stOneStock 1 (demoStock 1 1 "AAPL")
    fixedFieldsPatch 30 (by rfl)).1

/-- Claim C10: for every deck-scoped request (update, delete, list stocks,
add stock) a deck owned by a different user produces exactly the same 404
response as a deck that does not exist, with no state mutated; likewise for
every stock-scoped request (update, delete) when the stock is absent or its
parent deck is absent or foreign. -/
theorem foreign_target_indistinguishable (st : Storage) (user : User) (id : Nat)
    (dp : DeckPatch) (body : StockBody) (sp : StockPatch) (now : Nat) :
    ((getDeck st id = none ∨ (∃ deck, getDeck st id = some deck ∧ deck.userId ≠ user.id)) →
      updateDeckRoute st user id dp now = (.err 404 "Deck not found", st) ∧
      deleteDeckRoute st user id = (.err 404 "Deck not found", st) ∧
      listDeckStocksRoute st user id = (.err 404 "Deck not found", st) ∧
      addStockRoute st user id body now = (.err 404 "Deck not found", st))
    ∧
    ((getStock st id = none ∨
      (∃ stock, getStock st id = some stock ∧
        (getDeck st stock.deckId = none ∨
         (∃ deck, getDeck st stock.deckId = some deck ∧ deck.userId ≠ user.id)))) →
      updateStockRoute st user id sp now = (.err 404 "Stock not found", st) ∧
      deleteStockRoute st user id = (.err 404 "Stock not found", st)) := by
  constructor
  · intro hcond
    rcases hcond with hnone | ⟨deck, hdeck, hne⟩
    · refine ⟨?_, ?_, ?_, ?_⟩ <;>
        (first
          | (unfold updateDeckRoute; rw [hnone])
          | (unfold deleteDeckRoute; rw [hnone])
          | (unfold listDeckStocksRoute; rw [hnone])
          | (unfold addStockRoute; rw [hnone]))
    · refine ⟨?_, ?_, ?_, ?_⟩ <;>
        (first
          | (unfold updateDeckRoute; rw [hdeck]; dsimp only; rw [if_pos hne])
          | (unfold deleteDeckRoute; rw [hdeck]; dsimp only; rw [if_pos hne])
          | (unfold listDeckStocksRoute; rw [hdeck]; dsimp only; rw [if_pos hne])
          | (unfold addStockRoute; rw [hdeck]; dsimp only; rw [if_pos hne]))
  · intro hcond
    rcases hcond with hnone | ⟨stock, hstock, hinner⟩
    · constructor
      · unfold updateStockRoute
        rw [hnone]
      · unfold deleteStockRoute
        rw [hnone]
    · rcases hinner with hdnone | ⟨deck, hdeck, hne⟩
      · constructor
        · unfold updateStockRoute
          rw [hstock]
          dsimp only
          rw [hdnone]
        · unfold deleteStockRoute
          rw [hstock]
          dsimp only
          rw [hdnone]
      · constructor
        · unfold updateStockRoute
          rw [hstock]
          dsimp only
          rw [hdeck]
          dsimp only
          rw [if_pos hne]
        · unfold deleteStockRoute
          rw [hstock]
          dsimp only
          rw [hdeck]
          dsimp only
          rw [if_pos hne]

/-- Witness for C10: with deck 1 and stock 1 owned by `userOther`, requests
by `userFree` get the same 404 responses a nonexistent target would get,
and the state is unchanged. -/
theorem foreign_target_indistinguishable_witness :
    updateDeckRoute stForeignDeck userFree 1 {} 9 = (.err 404 "Deck not found", stForeignDeck) ∧
    updateStockRoute stForeignDeck userFree 1 {} 9 =
      (.err 404 "Stock not found", stForeignDeck) := by
  have h := foreign_target_indistinguishable stForeignDeck userFree 1 {} { symbol := "GOOGL" } {} 9
  exact ⟨(h.1 (Or.inr ⟨demoDeck 1 2 "Watchlist", rfl, by decide⟩)).1,
         (h.2 (Or.inr ⟨demoStock 1 1 "AAPL", rfl,
            Or.inr ⟨demoDeck 1 2 "Watchlist", rfl, by decide⟩⟩)).1⟩

/-- Witness for C6 on a concrete three-stock deck. -/
theorem deleteDeck_cascades_witness :
    getDeckStocks (deleteDeckStorage stFullDeck 1) 1 = [] ∧
    getDeck (deleteDeckStorage stFullDeck 1) 1 = none :=
  ⟨(deleteDeck_cascades stFullDeck 1 "AAPL" userFree).2.1,
   (deleteDeck_cascades stFullDeck 1 "AAPL" userFree).2.2.2.1⟩

end Dekr
